import Mathlib

/-!
Shallow embedding of the anemia-detection model manager
(`models/ModelManager.js`) of the Malaria-Detection repository.

Pure numeric values of the JavaScript code (IEEE doubles / float32) are
modelled as rationals `ℚ`; byte buffers as `List ℕ` / `ℕ → ℕ`;
fallible external operations (sharp decoding, ONNX session runs, HTTPS
requests, `fs.unlinkSync`) as explicit oracles returning `Except` /
`Option` values.  The mutable fields of the manager become an explicit state
record and each method a function on that state.
-/

namespace ModelManager

/-- Number of spatial pixels of the resized image (`224 * 224`). -/
def totalPixels : ℕ := 224 * 224

/-- Expected byte length of the decoded RGB buffer (`224 * 224 * 3`),
the `expectedSize` constant of `preprocessImage`. -/
def expectedSize : ℕ := 224 * 224 * 3

/-- The preprocessing loop handles pixels in batches of 1000
(`batchSize` in `preprocessImage`). -/
def batchSize : ℕ := 1000

/-- `Math.ceil(totalPixels / batchSize)`: the number of batch iterations
of the preprocessing loop (integer form of the ceiling). -/
def numBatches : ℕ := (totalPixels + batchSize - 1) / batchSize

/-- `this.maxLoadAttempts = 3` set in the constructor. -/
def maxLoadAttempts : ℕ := 3

/-- ImageNet channel means `[0.485, 0.456, 0.406]` (channel 0 = red). -/
def mean : ℕ → ℚ
  | 0 => 0.485
  | 1 => 0.456
  | _ => 0.406

/-- ImageNet channel standard deviations `[0.229, 0.224, 0.225]`. -/
def std : ℕ → ℚ
  | 0 => 0.229
  | 1 => 0.224
  | _ => 0.225

/-- One iteration of the inner pixel loop of `preprocessImage`: reads the
three interleaved bytes of pixel `i` from `buffer`, normalizes them, and
stores them at planar positions `i`, `i + totalPixels`,
`i + 2*totalPixels` of `float32Data`. -/
def writePixel (buffer : ℕ → ℕ) (i : ℕ) (data : ℕ → ℚ) : ℕ → ℚ :=
  Function.update
    (Function.update
      (Function.update data i (((buffer (i * 3 + 0) : ℚ) / 255 - mean 0) / std 0))
      (i + totalPixels) (((buffer (i * 3 + 1) : ℚ) / 255 - mean 1) / std 1))
    (i + 2 * totalPixels) (((buffer (i * 3 + 2) : ℚ) / 255 - mean 2) / std 2)

/-- The inner loop `for (let i = startIdx; i < endIdx; i++)` of
`preprocessImage`, running `cnt` iterations from index `start`. -/
def processRange (buffer : ℕ → ℕ) : ℕ → ℕ → (ℕ → ℚ) → (ℕ → ℚ)
  | _, 0, data => data
  | start, cnt + 1, data => processRange buffer (start + 1) cnt (writePixel buffer start data)

/-- The outer loop `for (let batch = 0; batch < Math.ceil(...); batch++)`
of `preprocessImage`, after `b` batch iterations.  Each batch covers
indices `[batch*batchSize, min (batch*batchSize + batchSize) totalPixels)`. -/
def runBatches (buffer : ℕ → ℕ) : ℕ → (ℕ → ℚ) → (ℕ → ℚ)
  | 0, data => data
  | b + 1, data =>
      processRange buffer (b * batchSize)
        (min (b * batchSize + batchSize) totalPixels - b * batchSize)
        (runBatches buffer b data)

/-- The `float32Data` array produced by the batched loops of
`preprocessImage`, starting from the zero-initialized `Float32Array`. -/
def float32Data (buffer : ℕ → ℕ) : ℕ → ℚ :=
  runBatches buffer numBatches (fun _ => 0)

lemma processRange_zero (buffer : ℕ → ℕ) (start : ℕ) (data : ℕ → ℚ) :
    processRange buffer start 0 data = data := rfl

lemma processRange_succ (buffer : ℕ → ℕ) (start cnt : ℕ) (data : ℕ → ℚ) :
    processRange buffer start (cnt + 1) data
      = processRange buffer (start + 1) cnt (writePixel buffer start data) := rfl

lemma runBatches_zero (buffer : ℕ → ℕ) (data : ℕ → ℚ) :
    runBatches buffer 0 data = data := rfl

lemma runBatches_succ (buffer : ℕ → ℕ) (b : ℕ) (data : ℕ → ℚ) :
    runBatches buffer (b + 1) data
      = processRange buffer (b * batchSize)
          (min (b * batchSize + batchSize) totalPixels - b * batchSize)
          (runBatches buffer b data) := rfl

/-- Splitting a contiguous run of inner-loop iterations. -/
lemma processRange_add (buffer : ℕ → ℕ) (n : ℕ) :
    ∀ (start m : ℕ) (data : ℕ → ℚ),
      processRange buffer (start + n) m (processRange buffer start n data)
        = processRange buffer start (n + m) data := by
  induction n with
  | zero =>
      intro start m data
      simp [processRange_zero]
  | succ k ih =>
      intro start m data
      rw [processRange_succ]
      have h1 : start + (k + 1) = (start + 1) + k := by ring
      rw [h1, ih (start + 1) m (writePixel buffer start data)]
      have h2 : k + 1 + m = (k + m) + 1 := by ring
      rw [h2, processRange_succ]

/-- The batched outer loop is the single flattened loop over
`[0, min (b*batchSize) totalPixels)`. -/
lemma runBatches_eq (buffer : ℕ → ℕ) (data : ℕ → ℚ) :
    ∀ b, runBatches buffer b data
      = processRange buffer 0 (min (b * batchSize) totalPixels) data := by
  intro b
  induction b with
  | zero =>
      rw [runBatches_zero]
      have h : min (0 * batchSize) totalPixels = 0 := by simp
      rw [h, processRange_zero]
  | succ k ih =>
      have hb : batchSize = 1000 := rfl
      have ht : totalPixels = 50176 := rfl
      rw [runBatches_succ, ih]
      rcases le_or_lt (k * batchSize) totalPixels with hle | hlt
      · rw [min_eq_left hle]
        have key := processRange_add buffer (k * batchSize) 0
          (min (k * batchSize + batchSize) totalPixels - k * batchSize) data
        rw [Nat.zero_add] at key
        rw [key]
        have harith : k * batchSize + (min (k * batchSize + batchSize) totalPixels - k * batchSize)
            = min ((k + 1) * batchSize) totalPixels := by
          rw [hb, ht] at hle ⊢
          omega
        rw [harith]
      · have h1 : min (k * batchSize) totalPixels = totalPixels :=
          min_eq_right (le_of_lt hlt)
        have h2 : min (k * batchSize + batchSize) totalPixels - k * batchSize = 0 := by
          rw [hb, ht] at hlt ⊢
          omega
        have h3 : min ((k + 1) * batchSize) totalPixels = totalPixels := by
          rw [hb, ht] at hlt ⊢
          omega
        rw [h1, h2, processRange_zero, h3]

/-- The 51 batches of 1000 pixels exactly cover the 50176 pixels. -/
lemma float32Data_eq (buffer : ℕ → ℕ) :
    float32Data buffer = processRange buffer 0 totalPixels (fun _ => 0) := by
  unfold float32Data
  rw [runBatches_eq]
  have h : min (numBatches * batchSize) totalPixels = totalPixels := by
    have h1 : numBatches * batchSize = 51000 := rfl
    have h2 : totalPixels = 50176 := rfl
    rw [h1, h2]
    omega
  rw [h]

/-- An index untouched by a run of inner-loop iterations keeps its value. -/
lemma processRange_frame (buffer : ℕ → ℕ) :
    ∀ (cnt start : ℕ) (data : ℕ → ℚ) (j : ℕ),
      (∀ k, start ≤ k → k < start + cnt →
          j ≠ k ∧ j ≠ k + totalPixels ∧ j ≠ k + 2 * totalPixels) →
      processRange buffer start cnt data j = data j := by
  intro cnt
  induction cnt with
  | zero => intro start data j _; rfl
  | succ m ih =>
      intro start data j hj
      rw [processRange_succ,
        ih (start + 1) (writePixel buffer start data) j
          (fun k hk1 hk2 => hj k (by omega) (by omega))]
      obtain ⟨h1, h2, h3⟩ := hj start (le_refl _) (by omega)
      unfold writePixel
      rw [Function.update_noteq h3, Function.update_noteq h2, Function.update_noteq h1]

/-- Reading the result of the flattened loop at planar position
`c * totalPixels + i` yields the normalized byte `buffer (i*3 + c)`. -/
lemma processRange_read (buffer : ℕ → ℕ) (data : ℕ → ℚ) (i c : ℕ)
    (hi : i < totalPixels) (hc : c < 3) :
    processRange buffer 0 totalPixels data (c * totalPixels + i)
      = ((buffer (i * 3 + c) : ℚ) / 255 - mean c) / std c := by
  have key := processRange_add buffer (i + 1) 0 (totalPixels - (i + 1)) data
  rw [Nat.zero_add] at key
  rw [show (i + 1) + (totalPixels - (i + 1)) = totalPixels by
    simp only [totalPixels] at hi ⊢; omega] at key
  rw [← key]
  rw [processRange_frame buffer (totalPixels - (i + 1)) (i + 1) _ (c * totalPixels + i)
    (by
      intro k hk1 hk2
      refine ⟨?_, ?_, ?_⟩ <;>
        · simp only [totalPixels] at hi hk1 hk2 ⊢
          omega)]
  have key2 := processRange_add buffer i 0 1 data
  rw [Nat.zero_add] at key2
  rw [← key2, processRange_succ, processRange_zero]
  unfold writePixel
  interval_cases c
  · rw [show 0 * totalPixels + i = i by ring]
    rw [Function.update_noteq (by simp only [totalPixels]; omega),
      Function.update_noteq (by simp only [totalPixels]; omega),
      Function.update_same]
  · rw [show 1 * totalPixels + i = i + totalPixels by ring]
    rw [Function.update_noteq (by simp only [totalPixels]; omega),
      Function.update_same]
  · rw [show 2 * totalPixels + i = i + 2 * totalPixels by ring]
    rw [Function.update_same]

/-- An ONNX inference session handle (`this.sessionONNX`), exposing the
declared input and output names. -/
structure Session where
  inputNames : List String
  outputNames : List String
deriving DecidableEq

/-- The mutable fields of the `ModelManager` instance. -/
structure MgrState where
  sessionONNX : Option Session
  modelLoadAttempts : ℕ
  isLoading : Bool
deriving DecidableEq

/-- Filesystem facts the manager consults: existence of the cached
artifact (`this.cachedModelPath`) and of the bundled local fallback
(`this.localModelPath`). -/
structure FsState where
  cachedExists : Bool
  localExists : Bool
deriving DecidableEq

/-- An `ort.Tensor`: its backing data array and its declared dims. -/
structure OrtTensor where
  data : ℕ → ℚ
  dims : List ℕ

/-- The output tensor read back from `sessionONNX.run`. -/
structure OrtOutput where
  data : List ℚ
  dims : List ℕ
deriving DecidableEq

/-- External-world oracles consumed by `predict`:
`decodeResize` models the sharp pipeline
`sharp(imagePath).resize(224,224).removeAlpha().raw().toBuffer()`
(either a decoded byte buffer or a thrown error), `run` models
`this.sessionONNX.run(feeds)` (either the first output tensor or a
thrown error), and `inferenceTimeMs` the measured wall-clock latency. -/
structure PredictEnv where
  decodeResize : String → Except String (List ℕ)
  run : OrtTensor → Except String OrtOutput
  inferenceTimeMs : ℕ

/-- `preprocessImage(imagePath)`: decode and resize, check the buffer
size against `expectedSize`, then build the NCHW tensor with dims
`[1, 3, 224, 224]`.  Errors thrown inside the `try` block are rethrown
prefixed with `Image preprocessing failed: `. -/
def preprocessImage (env : PredictEnv) (imagePath : String) : Except String OrtTensor :=
  match env.decodeResize imagePath with
  | .error e => .error ("Image preprocessing failed: " ++ e)
  | .ok buffer =>
    if buffer.length ≠ expectedSize then
      .error ("Image preprocessing failed: Buffer size mismatch: expected "
        ++ toString expectedSize ++ ", got " ++ toString buffer.length)
    else
      .ok ⟨float32Data (fun j => buffer.getD j 0), [1, 3, 224, 224]⟩

/-- `Number.isFinite` on a value of the tensor.  The embedding models
float32 entries as rationals, and every rational models a finite
number, so this is constantly `true`. -/
def isFiniteNum (_ : ℚ) : Bool := true

/-- `Array.from(inputTensor.data)`: the flattened entry list of the
tensor, of length the product of its dims. -/
def tensorToList (t : OrtTensor) : List ℚ :=
  (List.range t.dims.prod).map t.data

/-- `validateModelInput(inputTensor)`: throws when some entry is NaN or
non-finite, otherwise returns `true`. -/
def validateModelInput (t : OrtTensor) : Except String Bool :=
  if (tensorToList t).any (fun v => !(isFiniteNum v)) then
    .error "Input tensor contains NaN or infinite values"
  else
    .ok true

/-- In the rational model every entry is finite, so validation always
succeeds (the JS check can only fire on NaN/Infinity float values). -/
lemma validateModelInput_ok (t : OrtTensor) : validateModelInput t = .ok true := by
  simp [validateModelInput, isFiniteNum]

/-- `getModelSource()`: a pure function of the filesystem state. -/
def getModelSource (fs : FsState) : String :=
  if fs.cachedExists then "huggingface_cached"
  else if fs.localExists then "local"
  else "none"

/-- The debug block attached to a successful prediction. -/
structure DebugInfo where
  rawOutput : List ℚ
  outputShape : List ℕ
  inferenceTime : ℕ
deriving DecidableEq

/-- The result object returned by `predict`.  `confidence = none`
models the JavaScript `undefined` value (reachable when the model
output tensor is empty, since `outputData[0]` is then `undefined`). -/
structure PredictionResult where
  prediction : String
  confidence : Option ℚ
  usingDefaultPrediction : Bool
  modelSource : String
  error : Option String
  debug : Option DebugInfo
deriving DecidableEq

/-- The cautious default result used both when no session is loaded
(`err = none`) and in the catch-all branch (`err = some message`). -/
def defaultPrediction (err : Option String) : PredictionResult :=
  { prediction := "Anemic"
    confidence := some 0.8
    usingDefaultPrediction := true
    modelSource := "none"
    error := err
    debug := none }

/-- `predict(imagePath)`: the façade.  No session → immediate default;
otherwise preprocess, validate, run inference, and interpret the first
output scalar with the `rawConfidence > 0.5` rule.  Any thrown error is
caught and converted to the default annotated with the message.  When
the output tensor is empty, `outputData[0]` is `undefined`,
`undefined > 0.5` is `false`, so the `Anemic` branch is taken with an
`undefined` confidence (modelled by `none`). -/
def predict (st : MgrState) (fs : FsState) (env : PredictEnv) (imagePath : String) :
    PredictionResult :=
  match st.sessionONNX with
  | none => defaultPrediction none
  | some _ =>
    match preprocessImage env imagePath with
    | .error e => defaultPrediction (some e)
    | .ok inputTensor =>
      match validateModelInput inputTensor with
      | .error e => defaultPrediction (some e)
      | .ok _ =>
        match env.run inputTensor with
        | .error e => defaultPrediction (some e)
        | .ok out =>
          match out.data.head? with
          | some rawConfidence =>
            if rawConfidence > 0.5 then
              { prediction := "Non-anemic"
                confidence := some rawConfidence
                usingDefaultPrediction := false
                modelSource := getModelSource fs
                error := none
                debug := some ⟨out.data, out.dims, env.inferenceTimeMs⟩ }
            else
              { prediction := "Anemic"
                confidence := some rawConfidence
                usingDefaultPrediction := false
                modelSource := getModelSource fs
                error := none
                debug := some ⟨out.data, out.dims, env.inferenceTimeMs⟩ }
          | none =>
            { prediction := "Anemic"
              confidence := none
              usingDefaultPrediction := false
              modelSource := getModelSource fs
              error := none
              debug := some ⟨out.data, out.dims, env.inferenceTimeMs⟩ }

lemma predict_no_session (st : MgrState) (fs : FsState) (env : PredictEnv)
    (path : String) (hs : st.sessionONNX = none) :
    predict st fs env path = defaultPrediction none := by
  unfold predict
  rw [hs]

lemma predict_preprocess_err (st : MgrState) (fs : FsState) (env : PredictEnv)
    (path : String) (s : Session) (e : String)
    (hs : st.sessionONNX = some s) (hp : preprocessImage env path = .error e) :
    predict st fs env path = defaultPrediction (some e) := by
  unfold predict
  rw [hs, hp]

lemma predict_run_err (st : MgrState) (fs : FsState) (env : PredictEnv)
    (path : String) (s : Session) (t : OrtTensor) (e : String)
    (hs : st.sessionONNX = some s) (hp : preprocessImage env path = .ok t)
    (hr : env.run t = .error e) :
    predict st fs env path = defaultPrediction (some e) := by
  unfold predict
  simp only [hs, hp, validateModelInput_ok, hr]

lemma predict_success (st : MgrState) (fs : FsState) (env : PredictEnv)
    (path : String) (s : Session) (t : OrtTensor) (out : OrtOutput)
    (raw : ℚ) (rest : List ℚ)
    (hs : st.sessionONNX = some s) (hp : preprocessImage env path = .ok t)
    (hr : env.run t = .ok out) (hd : out.data = raw :: rest) :
    predict st fs env path =
      { prediction := if raw > 0.5 then "Non-anemic" else "Anemic"
        confidence := some raw
        usingDefaultPrediction := false
        modelSource := getModelSource fs
        error := none
        debug := some ⟨out.data, out.dims, env.inferenceTimeMs⟩ } := by
  unfold predict
  simp only [hs, hp, validateModelInput_ok, hr, hd, List.head?]
  by_cases h5 : raw > 0.5
  · simp [h5]
  · simp [h5]

lemma predict_empty_output (st : MgrState) (fs : FsState) (env : PredictEnv)
    (path : String) (s : Session) (t : OrtTensor) (out : OrtOutput)
    (hs : st.sessionONNX = some s) (hp : preprocessImage env path = .ok t)
    (hr : env.run t = .ok out) (hd : out.data = []) :
    predict st fs env path =
      { prediction := "Anemic"
        confidence := none
        usingDefaultPrediction := false
        modelSource := getModelSource fs
        error := none
        debug := some ⟨out.data, out.dims, env.inferenceTimeMs⟩ } := by
  unfold predict
  simp only [hs, hp, validateModelInput_ok, hr, hd, List.head?]

/-- Abstract outcome of the body of one `loadModel` attempt: either some
source (cache, fresh download, or bundled fallback) yields a session, or
every source fails. -/
inductive LoadOutcome where
  | success (s : Session)
  | failure
deriving DecidableEq

/-- The synchronous prologue of `loadModel` (lines 42-48): the
non-reentrant guard, then `this.modelLoadAttempts++` and
`this.isLoading = true`.  The returned flag records whether this call
started an attempt (`false` means the caller falls into `waitForLoad`
and changes nothing). -/
def loadBegin (st : MgrState) : MgrState × Bool :=
  if st.isLoading then (st, false)
  else ({ st with modelLoadAttempts := st.modelLoadAttempts + 1, isLoading := true }, true)

/-- Completion of an in-flight `loadModel` attempt.  On success the
session is stored and `isLoading` cleared.  On failure `isLoading` is
cleared and, when the (already incremented) counter is still below
`maxLoadAttempts`, exactly one retry is scheduled via
`setTimeout(() => this.loadModel(), 3000)` — returned as `some 3000`
(the delay in milliseconds); otherwise no retry is scheduled. -/
def loadFinish (st : MgrState) (outcome : LoadOutcome) : MgrState × Option ℕ :=
  match outcome with
  | .success s => ({ st with sessionONNX := some s, isLoading := false }, none)
  | .failure =>
      ({ st with isLoading := false },
        if st.modelLoadAttempts < maxLoadAttempts then some 3000 else none)

/-- One full `loadModel()` call as an atomic event-loop step: guarded
entry followed by completion of the attempt. -/
def loadModelStep (st : MgrState) (outcome : LoadOutcome) : MgrState × Option ℕ :=
  if st.isLoading then (st, none)
  else loadFinish (loadBegin st).1 outcome

/-- `retryLoadModel()`: re-enter `loadModel` if attempts remain,
otherwise a logged no-op. -/
def retryLoadModel (st : MgrState) (outcome : LoadOutcome) : MgrState × Option ℕ :=
  if st.modelLoadAttempts < maxLoadAttempts then loadModelStep st outcome
  else (st, none)

/-- An HTTPS response as seen by `downloadModel`: status code, status
message, the `Location` header (when present), and the body bytes. -/
structure HttpResponse where
  statusCode : ℕ
  statusMessage : String
  location : Option String
  body : List ℕ
deriving DecidableEq

/-- Result of `downloadModel`: either the body streamed to the cache
path, or a rejected promise carrying an error message. -/
inductive DownloadOutcome where
  | saved (body : List ℕ)
  | failed (msg : String)
deriving DecidableEq

/-- `downloadModel()`: issue `https.get`; on status 200 stream the body
to disk; on status 302 or 301 issue one further `https.get` on the
`Location` header and stream the body of that response unconditionally (its
status code is never inspected, and no further redirect is followed);
on any other status reject with `HTTP <code>: <message>`.  Transport
errors and the 120 s timeout are modelled as the oracle returning
`.error`.  The oracle takes an `Option String` because the redirect URL
is `response.headers.location`, which may be absent (`undefined`). -/
def downloadModel (fetch : Option String → Except String HttpResponse)
    (url : String) : DownloadOutcome :=
  match fetch (some url) with
  | .error e => .failed e
  | .ok response =>
    if response.statusCode = 200 then .saved response.body
    else if response.statusCode = 302 ∨ response.statusCode = 301 then
      match fetch response.location with
      | .error e => .failed e
      | .ok redirectResponse => .saved redirectResponse.body
    else .failed ("HTTP " ++ toString response.statusCode ++ ": " ++ response.statusMessage)

/-- Result object of `clearCache()`. -/
structure ClearResult where
  success : Bool
  message : String
deriving DecidableEq

/-- `clearCache()`: when the cached artifact exists, `fs.unlinkSync` it
(the oracle `unlinkErr` is `some msg` when that call throws); the
manager object itself is never touched. -/
def clearCache (st : MgrState) (fs : FsState) (unlinkErr : Option String) :
    MgrState × FsState × ClearResult :=
  if fs.cachedExists then
    match unlinkErr with
    | none => (st, { fs with cachedExists := false }, ⟨true, "Cache cleared"⟩)
    | some m => (st, fs, ⟨false, m⟩)
  else (st, fs, ⟨true, "Cache cleared"⟩)

/-- The snapshot returned by `getModelStatus()` (the constant
`repository` and `modelUrl` string fields are omitted). -/
structure ModelStatus where
  isLoaded : Bool
  loadAttempts : ℕ
  maxAttempts : ℕ
  isLoading : Bool
  modelSource : String
  cached : Bool
  localExists : Bool
  inputNames : List String
  outputNames : List String
deriving DecidableEq

/-- `getModelStatus()`. -/
def getModelStatus (st : MgrState) (fs : FsState) : ModelStatus :=
  { isLoaded := st.sessionONNX.isSome
    loadAttempts := st.modelLoadAttempts
    maxAttempts := maxLoadAttempts
    isLoading := st.isLoading
    modelSource := getModelSource fs
    cached := fs.cachedExists
    localExists := fs.localExists
    inputNames := (st.sessionONNX.map Session.inputNames).getD []
    outputNames := (st.sessionONNX.map Session.outputNames).getD [] }

/-- A concrete session handle used in witnesses and counterexamples. -/
def sessionExample : Session := ⟨["input"], ["output"]⟩

/-- A fresh manager with no session loaded. -/
def mgrUnloaded : MgrState := ⟨none, 0, false⟩

/-- A manager holding a live session. -/
def mgrLoaded : MgrState := ⟨some sessionExample, 1, false⟩

/-- Filesystem with neither cache nor local fallback present. -/
def fsNone : FsState := ⟨false, false⟩

/-- A decoded buffer of the correct size, all bytes zero. -/
def sampleBuffer : List ℕ := List.replicate expectedSize 0

/-- An environment whose decode step yields `sampleBuffer` and whose
session run yields the single raw score `raw`. -/
def mkEnv (raw : ℚ) : PredictEnv :=
  ⟨fun _ => .ok sampleBuffer, fun _ => .ok ⟨[raw], [1, 1]⟩, 5⟩

/-- An environment whose decode step yields an empty buffer. -/
def badEnv : PredictEnv :=
  ⟨fun _ => .ok [], fun _ => .error "no model", 0⟩

/-- An HTTP oracle whose first response is a 307 redirect and whose
redirect target would serve the body `[2]` with status 200. -/
def fetch307 : Option String → Except String HttpResponse :=
  fun o =>
    if o = some "https://huggingface.co/model.onnx" then
      .ok ⟨307, "Temporary Redirect", some "https://cdn.example/model.onnx", [1]⟩
    else if o = some "https://cdn.example/model.onnx" then
      .ok ⟨200, "OK", none, [2]⟩
    else .error "no such host"

lemma preprocessImage_mkEnv (raw : ℚ) (path : String) :
    preprocessImage (mkEnv raw) path
      = .ok ⟨float32Data (fun j => sampleBuffer.getD j 0), [1, 3, 224, 224]⟩ := by
  simp [preprocessImage, mkEnv, sampleBuffer]

/-- Whatever the branch taken, the prediction string is one of the two
clinical labels. -/
lemma predict_prediction_mem (st : MgrState) (fs : FsState) (env : PredictEnv)
    (path : String) :
    (predict st fs env path).prediction = "Anemic" ∨
    (predict st fs env path).prediction = "Non-anemic" := by
  rcases hs : st.sessionONNX with _ | s
  · rw [predict_no_session st fs env path hs]; left; rfl
  · rcases hp : preprocessImage env path with e | t
    · rw [predict_preprocess_err st fs env path s e hs hp]; left; rfl
    · rcases hr : env.run t with e | out
      · rw [predict_run_err st fs env path s t e hs hp hr]; left; rfl
      · rcases hd : out.data with _ | ⟨raw, rest⟩
        · rw [predict_empty_output st fs env path s t out hs hp hr hd]; left; rfl
        · rw [predict_success st fs env path s t out raw rest hs hp hr hd]
          by_cases h5 : raw > 0.5
          · right; simp [h5]
          · left; simp [h5]

/-- Every result flagged as a default carries the 0.8 confidence. -/
lemma predict_default_confidence (st : MgrState) (fs : FsState) (env : PredictEnv)
    (path : String) :
    (predict st fs env path).usingDefaultPrediction = true →
    (predict st fs env path).confidence = some 0.8 := by
  rcases hs : st.sessionONNX with _ | s
  · rw [predict_no_session st fs env path hs]
    intro _; rfl
  · rcases hp : preprocessImage env path with e | t
    · rw [predict_preprocess_err st fs env path s e hs hp]
      intro _; rfl
    · rcases hr : env.run t with e | out
      · rw [predict_run_err st fs env path s t e hs hp hr]
        intro _; rfl
      · rcases hd : out.data with _ | ⟨raw, rest⟩
        · rw [predict_empty_output st fs env path s t out hs hp hr hd]
          intro h; exact absurd h (by simp)
        · rw [predict_success st fs env path s t out raw rest hs hp hr hd]
          intro h; exact absurd h (by simp)

/-- Claim C1: `predict` is a total function into `PredictionResult`
(never an exception).  With no loaded session it returns exactly the
cautious default, independently of the environment, hence without
attempting preprocessing; a preprocessing error or an inference error
is converted to the same default annotated with the error message; and
the result is always well formed (its label is one of the two clinical
strings). -/
theorem predict_facade_contract (st : MgrState) (fs : FsState) (env : PredictEnv)
    (path : String) :
    (st.sessionONNX = none → predict st fs env path = defaultPrediction none) ∧
    (∀ e, st.sessionONNX ≠ none → preprocessImage env path = .error e →
        predict st fs env path = defaultPrediction (some e)) ∧
    (∀ t e, st.sessionONNX ≠ none → preprocessImage env path = .ok t →
        env.run t = .error e → predict st fs env path = defaultPrediction (some e)) ∧
    ((predict st fs env path).prediction = "Anemic" ∨
        (predict st fs env path).prediction = "Non-anemic") := by
  refine ⟨fun h => predict_no_session st fs env path h, ?_, ?_,
    predict_prediction_mem st fs env path⟩
  · intro e hne hp
    rcases hs : st.sessionONNX with _ | s
    · exact absurd hs hne
    · exact predict_preprocess_err st fs env path s e hs hp
  · intro t e hne hp hr
    rcases hs : st.sessionONNX with _ | s
    · exact absurd hs hne
    · exact predict_run_err st fs env path s t e hs hp hr

/-- Witness for C1 at a concrete manager with no loaded session. -/
theorem predict_facade_contract_witness :
    mgrUnloaded.sessionONNX = none ∧
    predict mgrUnloaded fsNone badEnv "img" = defaultPrediction none :=
  ⟨rfl, (predict_facade_contract mgrUnloaded fsNone badEnv "img").1 rfl⟩

/-- Claim C2: the interpretation step labels a raw score strictly above
0.5 as Non-anemic and anything else as Anemic, reporting the raw score
itself as the confidence in both branches; in particular the raw scores
0.50001 and 0.49999 yield different labels with confidence equal to the
raw score. -/
theorem interpret_decision_rule :
    (∀ (st : MgrState) (fs : FsState) (env : PredictEnv) (path : String)
        (s : Session) (t : OrtTensor) (out : OrtOutput) (raw : ℚ) (rest : List ℚ),
        st.sessionONNX = some s → preprocessImage env path = .ok t →
        env.run t = .ok out → out.data = raw :: rest →
        ((raw > 0.5 → (predict st fs env path).prediction = "Non-anemic" ∧
            (predict st fs env path).confidence = some raw) ∧
         (raw ≤ 0.5 → (predict st fs env path).prediction = "Anemic" ∧
            (predict st fs env path).confidence = some raw))) ∧
    (predict mgrLoaded fsNone (mkEnv 0.50001) "img").prediction = "Non-anemic" ∧
    (predict mgrLoaded fsNone (mkEnv 0.50001) "img").confidence = some 0.50001 ∧
    (predict mgrLoaded fsNone (mkEnv 0.49999) "img").prediction = "Anemic" ∧
    (predict mgrLoaded fsNone (mkEnv 0.49999) "img").confidence = some 0.49999 := by
  have e1 := predict_success mgrLoaded fsNone (mkEnv 0.50001) "img" sessionExample
    ⟨float32Data (fun j => sampleBuffer.getD j 0), [1, 3, 224, 224]⟩
    ⟨[0.50001], [1, 1]⟩ 0.50001 []
    rfl (preprocessImage_mkEnv 0.50001 "img") rfl rfl
  have e2 := predict_success mgrLoaded fsNone (mkEnv 0.49999) "img" sessionExample
    ⟨float32Data (fun j => sampleBuffer.getD j 0), [1, 3, 224, 224]⟩
    ⟨[0.49999], [1, 1]⟩ 0.49999 []
    rfl (preprocessImage_mkEnv 0.49999 "img") rfl rfl
  refine ⟨?_, ?_, ?_, ?_, ?_⟩
  · intro st fs env path s t out raw rest hs hp hr hd
    have e := predict_success st fs env path s t out raw rest hs hp hr hd
    constructor
    · intro h5
      rw [e]
      constructor <;> simp [h5]
    · intro h5
      have h5x : ¬ (raw > 0.5) := not_lt.mpr h5
      rw [e]
      constructor <;> simp [h5x]
  · rw [e1]; norm_num
  · rw [e1]
  · rw [e2]; norm_num
  · rw [e2]

/-- Witness for the universal part of C2 at raw score 3/4. -/
theorem interpret_decision_rule_witness :
    (predict mgrLoaded fsNone (mkEnv 0.75) "img").prediction = "Non-anemic" ∧
    (predict mgrLoaded fsNone (mkEnv 0.75) "img").confidence = some 0.75 :=
  (interpret_decision_rule.1 mgrLoaded fsNone (mkEnv 0.75) "img" sessionExample
    ⟨float32Data (fun j => sampleBuffer.getD j 0), [1, 3, 224, 224]⟩
    ⟨[0.75], [1, 1]⟩ 0.75 []
    rfl (preprocessImage_mkEnv 0.75 "img") rfl rfl).1 (by norm_num)

/-- Claim C3: on a decoded buffer of exactly 224*224*3 bytes the
pipeline yields the tensor with dims `[1, 3, 224, 224]` whose entry at
planar position `c * 224*224 + i` is the normalized interleaved byte
`buffer (3*i + c)`, with the ImageNet mean/std constants: red fills the
first `224*224` slots, green the next block, blue the last. -/
theorem preprocess_nchw_layout :
    (∀ (buffer : ℕ → ℕ) (i c : ℕ), i < totalPixels → c < 3 →
        float32Data buffer (c * totalPixels + i)
          = ((buffer (3 * i + c) : ℚ) / 255 - mean c) / std c) ∧
    (∀ (env : PredictEnv) (path : String) (buf : List ℕ),
        env.decodeResize path = .ok buf → buf.length = expectedSize →
        preprocessImage env path
          = .ok ⟨float32Data (fun j => buf.getD j 0), [1, 3, 224, 224]⟩) := by
  constructor
  · intro buffer i c hi hc
    rw [float32Data_eq, show 3 * i + c = i * 3 + c by ring]
    exact processRange_read buffer _ i c hi hc
  · intro env path buf hdec hlen
    simp only [preprocessImage, hdec]
    rw [if_neg (fun h => h hlen)]

/-- Witness for C3 at the zero buffer, pixel 0, channel 0. -/
theorem preprocess_nchw_layout_witness :
    0 < totalPixels ∧ (0 : ℕ) < 3 ∧
    float32Data (fun _ => 0) (0 * totalPixels + 0)
      = (((0 : ℕ) : ℚ) / 255 - mean 0) / std 0 :=
  ⟨by decide, by decide,
    preprocess_nchw_layout.1 (fun _ => 0) 0 0 (by decide) (by decide)⟩

/-- Claim C4: a decoded buffer whose length differs from 224*224*3
makes preprocessing throw (a `Buffer size mismatch` error, rethrown
with the `Image preprocessing failed` prefix) and produce no tensor;
the buffer is never truncated or padded to fit. -/
theorem preprocess_size_contract (env : PredictEnv) (path : String) (buf : List ℕ)
    (hdec : env.decodeResize path = .ok buf) (hlen : buf.length ≠ expectedSize) :
    preprocessImage env path
      = .error ("Image preprocessing failed: Buffer size mismatch: expected "
          ++ toString expectedSize ++ ", got " ++ toString buf.length) ∧
    ∀ t, preprocessImage env path ≠ .ok t := by
  have h1 : preprocessImage env path
      = .error ("Image preprocessing failed: Buffer size mismatch: expected "
          ++ toString expectedSize ++ ", got " ++ toString buf.length) := by
    simp only [preprocessImage, hdec]
    rw [if_pos hlen]
  exact ⟨h1, fun t h => by rw [h1] at h; cases h⟩

/-- Witness for C4 at an empty decoded buffer. -/
theorem preprocess_size_contract_witness :
    ([] : List ℕ).length ≠ expectedSize ∧
    ∀ t, preprocessImage badEnv "img" ≠ .ok t :=
  ⟨by decide, (preprocess_size_contract badEnv "img" [] rfl (by decide)).2⟩

/-- Claim C5 counterexample: the attempt counter is incremented at the
start of every non-reentrant `loadModel` call, not only on failure — a
fully successful load still moves the counter from 0 to 1. -/
theorem load_attempts_increment_on_success :
    (loadModelStep mgrUnloaded (.success sessionExample)).1.sessionONNX
      = some sessionExample ∧
    (loadModelStep mgrUnloaded (.success sessionExample)).1.modelLoadAttempts = 1 ∧
    mgrUnloaded.modelLoadAttempts = 0 :=
  ⟨rfl, rfl, rfl⟩

/-- Claim C5 (amended): the counter is incremented at the start of every
load attempt, success or failure (a reentrant call during an active
load changes nothing); after a failure, while the incremented counter
is below `maxLoadAttempts` (3) exactly one retry is scheduled with the
fixed 3000 ms delay; once the counter reaches `maxLoadAttempts` no
retry is scheduled and the session stays as it was; `retryLoadModel`
re-enters the load path when attempts remain and is a no-op
otherwise. -/
theorem retry_policy_amended (st : MgrState) (outcome : LoadOutcome) :
    (st.isLoading = false →
        (loadModelStep st outcome).1.modelLoadAttempts = st.modelLoadAttempts + 1) ∧
    (st.isLoading = true → loadModelStep st outcome = (st, none)) ∧
    (st.isLoading = false → outcome = .failure →
        st.modelLoadAttempts + 1 < maxLoadAttempts →
        (loadModelStep st outcome).2 = some 3000) ∧
    (st.isLoading = false → outcome = .failure →
        maxLoadAttempts ≤ st.modelLoadAttempts + 1 →
        (loadModelStep st outcome).2 = none ∧
        (loadModelStep st outcome).1.sessionONNX = st.sessionONNX) ∧
    (st.modelLoadAttempts < maxLoadAttempts →
        retryLoadModel st outcome = loadModelStep st outcome) ∧
    (maxLoadAttempts ≤ st.modelLoadAttempts →
        retryLoadModel st outcome = (st, none)) := by
  refine ⟨?_, ?_, ?_, ?_, ?_, ?_⟩
  · intro h
    rcases outcome with s | _ <;> simp [loadModelStep, loadBegin, loadFinish, h]
  · intro h
    simp [loadModelStep, h]
  · intro h ho hlt
    subst ho
    simp [loadModelStep, loadBegin, loadFinish, h, hlt]
  · intro h ho hge
    subst ho
    constructor <;>
      simp [loadModelStep, loadBegin, loadFinish, h, Nat.not_lt.mpr hge]
  · intro h
    simp [retryLoadModel, h]
  · intro h
    simp [retryLoadModel, Nat.not_lt.mpr h]

/-- Witness for the amended C5: the first failing attempt schedules one
retry with the 3000 ms delay. -/
theorem retry_policy_amended_witness :
    (loadModelStep mgrUnloaded .failure).2 = some 3000 :=
  (retry_policy_amended mgrUnloaded .failure).2.2.1 rfl rfl (by decide)

/-- Claim C6 counterexample: a 307 response carrying a `Location`
header is not followed — the download rejects with `HTTP 307` instead
of streaming the redirect target (which would have served body `[2]`
with status 200), so not every 3xx redirect is honored. -/
theorem download_307_not_followed :
    downloadModel fetch307 "https://huggingface.co/model.onnx"
      = .failed "HTTP 307: Temporary Redirect" ∧
    ∀ b, downloadModel fetch307 "https://huggingface.co/model.onnx" ≠ .saved b := by
  have h1 : downloadModel fetch307 "https://huggingface.co/model.onnx"
      = .failed "HTTP 307: Temporary Redirect" := rfl
  exact ⟨h1, fun b h => by rw [h1] at h; cases h⟩

/-- Claim C6 (amended): a response with status exactly 200 streams the
body to the cache path; a status of exactly 302 or 301 is followed once
via the `Location` header, the redirect response body being streamed
without inspecting its status (so a second hop is never followed); any
other status — including other 2xx and 3xx codes — and any transport or
timeout error makes the download fail with no successful completion. -/
theorem download_status_branches (fetch : Option String → Except String HttpResponse)
    (url : String) :
    (∀ e, fetch (some url) = .error e → downloadModel fetch url = .failed e) ∧
    (∀ r, fetch (some url) = .ok r → r.statusCode = 200 →
        downloadModel fetch url = .saved r.body) ∧
    (∀ r r2, fetch (some url) = .ok r →
        (r.statusCode = 302 ∨ r.statusCode = 301) →
        fetch r.location = .ok r2 →
        downloadModel fetch url = .saved r2.body) ∧
    (∀ r e, fetch (some url) = .ok r →
        (r.statusCode = 302 ∨ r.statusCode = 301) →
        fetch r.location = .error e →
        downloadModel fetch url = .failed e) ∧
    (∀ r, fetch (some url) = .ok r → r.statusCode ≠ 200 →
        r.statusCode ≠ 302 → r.statusCode ≠ 301 →
        downloadModel fetch url
          = .failed ("HTTP " ++ toString r.statusCode ++ ": " ++ r.statusMessage)) := by
  refine ⟨?_, ?_, ?_, ?_, ?_⟩
  · intro e hf
    simp only [downloadModel, hf]
  · intro r hf h200
    simp only [downloadModel, hf]
    rw [if_pos h200]
  · intro r r2 hf h32 hr2
    have h200 : ¬ (r.statusCode = 200) := by rcases h32 with h | h <;> omega
    simp only [downloadModel, hf]
    rw [if_neg h200, if_pos h32]
    simp only [hr2]
  · intro r e hf h32 hr2
    have h200 : ¬ (r.statusCode = 200) := by rcases h32 with h | h <;> omega
    simp only [downloadModel, hf]
    rw [if_neg h200, if_pos h32]
    simp only [hr2]
  · intro r hf h200 h302 h301
    simp only [downloadModel, hf]
    rw [if_neg h200, if_neg (fun h => h.elim h302 h301)]

/-- Witness for the amended C6: a direct 200 response streams its
body. -/
theorem download_status_branches_witness :
    downloadModel fetch307 "https://cdn.example/model.onnx" = .saved [2] :=
  (download_status_branches fetch307 "https://cdn.example/model.onnx").2.1
    ⟨200, "OK", none, [2]⟩ rfl rfl

/-- Claim C8: single-flight loading, with the synchronous prologue of
`loadModel` as one atomic event-loop step.  A first caller passes the
guard and starts the attempt; a second caller arriving while the load
is in flight starts nothing and changes no state (it falls into
`waitForLoad`); when the in-flight attempt finishes, the shared state
records exactly one more attempt and is no longer loading, and both
callers observe that same state. -/
theorem load_single_flight (st : MgrState) (outcome : LoadOutcome)
    (h : st.isLoading = false) :
    (loadBegin st).2 = true ∧
    (loadBegin (loadBegin st).1).2 = false ∧
    (loadBegin (loadBegin st).1).1 = (loadBegin st).1 ∧
    (loadFinish (loadBegin st).1 outcome).1.isLoading = false ∧
    (loadFinish (loadBegin st).1 outcome).1.modelLoadAttempts
      = st.modelLoadAttempts + 1 := by
  rcases outcome with s | _ <;>
    refine ⟨?_, ?_, ?_, ?_, ?_⟩ <;>
      simp [loadBegin, loadFinish, h]

/-- Witness for C8 at a fresh manager and a failing attempt. -/
theorem load_single_flight_witness :
    (loadBegin mgrUnloaded).2 = true ∧
    (loadBegin (loadBegin mgrUnloaded).1).2 = false ∧
    (loadBegin (loadBegin mgrUnloaded).1).1 = (loadBegin mgrUnloaded).1 ∧
    (loadFinish (loadBegin mgrUnloaded).1 .failure).1.isLoading = false ∧
    (loadFinish (loadBegin mgrUnloaded).1 .failure).1.modelLoadAttempts
      = mgrUnloaded.modelLoadAttempts + 1 :=
  load_single_flight mgrUnloaded .failure rfl

/-- Claim C9: `clearCache` deletes only the cached artifact file — the
manager state (session handle, attempt counter, loading flag) is
returned exactly as it was, the local fallback file is untouched, and
the cache file disappears exactly when it existed and `unlinkSync`
succeeded. -/
theorem clearCache_frame (st : MgrState) (fs : FsState) (unlinkErr : Option String) :
    (clearCache st fs unlinkErr).1 = st ∧
    (clearCache st fs unlinkErr).2.1.localExists = fs.localExists ∧
    (fs.cachedExists = false → (clearCache st fs unlinkErr).2.1 = fs) ∧
    (unlinkErr = none → fs.cachedExists = true →
        (clearCache st fs unlinkErr).2.1.cachedExists = false) ∧
    (unlinkErr ≠ none → (clearCache st fs unlinkErr).2.1 = fs) := by
  rcases unlinkErr with _ | m <;> cases hfs : fs.cachedExists <;>
    simp [clearCache, hfs]

/-- Witness for C9: clearing an existing cache with a live session
leaves the manager state intact and removes the cache file. -/
theorem clearCache_frame_witness :
    (clearCache mgrLoaded ⟨true, false⟩ none).1 = mgrLoaded ∧
    (clearCache mgrLoaded ⟨true, false⟩ none).2.1.cachedExists = false :=
  ⟨(clearCache_frame mgrLoaded ⟨true, false⟩ none).1,
   (clearCache_frame mgrLoaded ⟨true, false⟩ none).2.2.2.1 rfl rfl⟩

/-- Claim C10: `getModelSource` is a pure function of the filesystem
state — `huggingface_cached` when the cache file exists, else `local`
when the bundled fallback exists, else `none` — for every manager state
(hence independent of which artifact the live session was created
from); `getModelStatus` reports exactly that tag, and so does every
non-default `predict` result. -/
theorem modelSource_pure_of_fs (st : MgrState) (fs : FsState) :
    (fs.cachedExists = true → getModelSource fs = "huggingface_cached") ∧
    (fs.cachedExists = false → fs.localExists = true →
        getModelSource fs = "local") ∧
    (fs.cachedExists = false → fs.localExists = false →
        getModelSource fs = "none") ∧
    (getModelStatus st fs).modelSource = getModelSource fs ∧
    (∀ (env : PredictEnv) (path : String),
        (predict st fs env path).usingDefaultPrediction = false →
        (predict st fs env path).modelSource = getModelSource fs) := by
  refine ⟨?_, ?_, ?_, rfl, ?_⟩
  · intro h; simp [getModelSource, h]
  · intro h h2; simp [getModelSource, h, h2]
  · intro h h2; simp [getModelSource, h, h2]
  · intro env path h
    rcases hs : st.sessionONNX with _ | s
    · rw [predict_no_session st fs env path hs] at h
      exact absurd h (by simp [defaultPrediction])
    · rcases hp : preprocessImage env path with e | t
      · rw [predict_preprocess_err st fs env path s e hs hp] at h
        exact absurd h (by simp [defaultPrediction])
      · rcases hr : env.run t with e | out
        · rw [predict_run_err st fs env path s t e hs hp hr] at h
          exact absurd h (by simp [defaultPrediction])
        · rcases hd : out.data with _ | ⟨raw, rest⟩
          · rw [predict_empty_output st fs env path s t out hs hp hr hd]
          · rw [predict_success st fs env path s t out raw rest hs hp hr hd]

/-- Witness for C10 with the cache file present. -/
theorem modelSource_pure_of_fs_witness :
    getModelSource ⟨true, false⟩ = "huggingface_cached" :=
  (modelSource_pure_of_fs mgrUnloaded ⟨true, false⟩).1 rfl

/-- Claim C7 counterexample: the code does not clamp the reported
confidence — a session whose output tensor holds the raw score 2 makes
`predict` report confidence 2, outside `[0, 1]`. -/
theorem predict_confidence_unbounded :
    (predict mgrLoaded fsNone (mkEnv 2) "img").usingDefaultPrediction = false ∧
    (predict mgrLoaded fsNone (mkEnv 2) "img").confidence = some 2 ∧
    ¬ ((2 : ℚ) ≤ 1) := by
  have e := predict_success mgrLoaded fsNone (mkEnv 2) "img" sessionExample
    ⟨float32Data (fun j => sampleBuffer.getD j 0), [1, 3, 224, 224]⟩
    ⟨[2], [1, 1]⟩ 2 []
    rfl (preprocessImage_mkEnv 2 "img") rfl rfl
  refine ⟨?_, ?_, by norm_num⟩ <;> rw [e]

/-- Claim C7 (amended): the prediction string is always one of the two
clinical labels; on every default path the confidence is 0.8, inside
`[0, 1]`; on the non-default path the confidence equals the raw output
score, so it lies in `[0, 1]` exactly when that score does (the code
performs no clamping). -/
theorem predict_output_range (st : MgrState) (fs : FsState) (env : PredictEnv)
    (path : String) :
    ((predict st fs env path).prediction = "Anemic" ∨
        (predict st fs env path).prediction = "Non-anemic") ∧
    ((predict st fs env path).usingDefaultPrediction = true →
        (predict st fs env path).confidence = some 0.8 ∧
        (0 : ℚ) ≤ 0.8 ∧ (0.8 : ℚ) ≤ 1) ∧
    (∀ (t : OrtTensor) (out : OrtOutput) (raw : ℚ) (rest : List ℚ),
        preprocessImage env path = .ok t → env.run t = .ok out →
        out.data = raw :: rest → 0 ≤ raw → raw ≤ 1 →
        ∀ c, (predict st fs env path).confidence = some c → 0 ≤ c ∧ c ≤ 1) := by
  refine ⟨predict_prediction_mem st fs env path, ?_, ?_⟩
  · intro h
    exact ⟨predict_default_confidence st fs env path h, by norm_num, by norm_num⟩
  · intro t out raw rest hp hr hd h0 h1 c hc
    rcases hs : st.sessionONNX with _ | s
    · rw [predict_no_session st fs env path hs] at hc
      have h8 : some (0.8 : ℚ) = some c := hc
      rw [← Option.some.inj h8]
      norm_num
    · rw [predict_success st fs env path s t out raw rest hs hp hr hd] at hc
      have hrc : some raw = some c := hc
      rw [← Option.some.inj hrc]
      exact ⟨h0, h1⟩

/-- Witness for the amended C7 on the default path. -/
theorem predict_output_range_witness :
    (predict mgrUnloaded fsNone badEnv "img").confidence = some 0.8 ∧
    (0 : ℚ) ≤ 0.8 ∧ (0.8 : ℚ) ≤ 1 :=
  (predict_output_range mgrUnloaded fsNone badEnv "img").2.1 rfl

end ModelManager
